import Mathlib

/-!
Verification of the Connection Lifecycle Manager of the api-baileys-v2
repository (`WhatsAppService`, src/unnamed/part_000 lines 1-1003).

The service is shallowly embedded: the mutable `Map` fields of the class
become function tables `String → Option α`, the filesystem side effects
(auth credential folders, QR image files) become boolean tables inside the
same state record, timestamps are omitted (no claim mentions them), and
fallible external effects (`socket.logout()`, `fs.remove`) are driven by an
explicit oracle record saying which of them throws.  Scheduled work
(`setTimeout(... createConnection(id, true) ...)`) is returned as a value of
type `Option ScheduledTask` instead of being executed.

Spec-to-code state mapping used throughout (the spec's abstract
`lifecycleState` names versus the literal status strings of the code):
`Connecting` ≙ "connecting", `Connected` ≙ "connected",
`Disconnected` ≙ "disconnected", `Logged-Out` ≙ "loggedOut",
`Fatal-Error` ≙ "error" with a diagnostic in `error`, and
`Provisioning-Timeout` ≙ the "error"/"disconnected" status carrying
`error = "timeout"` that only the QR-timeout paths produce.
-/

namespace ApiBaileys

/-- Table update: `m.set(k, v)` of a TypeScript `Map`. -/
def tset {α : Type} (m : String → Option α) (k : String) (v : α) :
    String → Option α :=
  fun q => if q = k then some v else m q

/-- Table deletion: `m.delete(k)` of a TypeScript `Map`. -/
def tdel {α : Type} (m : String → Option α) (k : String) :
    String → Option α :=
  fun q => if q = k then none else m q

/-- Clearing an entry of a boolean (filesystem-presence) table. -/
def bclear (m : String → Bool) (k : String) : String → Bool :=
  fun q => if q = k then false else m q

/-- The status strings of `ConnectionStatus.status`
(src/unnamed/part_002: 'connecting' | 'connected' | 'disconnected' |
'forbidden' | 'error' | 'loggedOut'). -/
inductive ConnStatusKind where
  | connecting
  | connected
  | disconnected
  | forbidden
  | error
  | loggedOut
deriving DecidableEq, Repr

/-- The `ConnectionStatus` record of src/unnamed/part_002, without the
timestamp fields (`createdAt`, `lastSeen`) and the `connectionTimeout`
handle, which no claim mentions. -/
structure ConnectionStatus where
  id : String
  status : ConnStatusKind
  qrCode : Option String := none
  phoneNumber : Option String := none
  error : Option String := none
deriving DecidableEq, Repr

/-- The opaque Baileys `WASocket` handle; the only part of it the lifecycle
code reads is `socket.user?.id` (used on the open transition). -/
structure Handle where
  userId : Option String := none
deriving DecidableEq, Repr

/-- The mutable state of one `WhatsAppService` instance: its `Map` fields
plus the two filesystem locations it owns (`auth/<id>` credential folders
and the `temp/<id>_qr.png` images removed by `removeConnection`). -/
structure SvcState where
  connections : String → Option Handle
  connectionStatus : String → Option ConnectionStatus
  connectionLocks : String → Option Bool
  connectionPromises : String → Option Nat
  reconnectAttempts : String → Option Nat
  qrLocks : String → Option Bool
  authDirs : String → Bool
  qrFiles : String → Bool

/-- A service state with every table empty. -/
def SvcState.empty : SvcState where
  connections := fun _ => none
  connectionStatus := fun _ => none
  connectionLocks := fun _ => none
  connectionPromises := fun _ => none
  reconnectAttempts := fun _ => none
  qrLocks := fun _ => none
  authDirs := fun _ => false
  qrFiles := fun _ => false

/- Close-reason codes of the external Baileys `DisconnectReason` enum, as
documented by that library. -/
namespace DisconnectReason

def connectionLost : Nat := 408
def loggedOut : Nat := 401
def forbidden : Nat := 403
def badSession : Nat := 500
def restartRequired : Nat := 515

end DisconnectReason

/-- `private readonly MAX_RECONNECT_ATTEMPTS = 3` (line 34). -/
def MAX_RECONNECT_ATTEMPTS : Nat := 3

/-- The allow-list of reconnectable close codes (lines 362-367):
`[515, DisconnectReason.loggedOut, DisconnectReason.restartRequired,
DisconnectReason.connectionLost]`. -/
def reconectaveis : List Nat :=
  [515, DisconnectReason.loggedOut, DisconnectReason.restartRequired,
   DisconnectReason.connectionLost]

/-- Which of the effectful steps of `removeConnection` throw in a given
run: the graceful `socket.logout()`, the `fs.remove(authPath)` and the
`fs.remove(qrPath)`. -/
structure RemoveOracle where
  logoutThrows : Bool := false
  authRemoveThrows : Bool := false
  qrRemoveThrows : Bool := false
deriving DecidableEq, Repr

/-- The QR-image removal tail of `removeConnection` (lines 636-648). -/
def removeQrFileStep (s : SvcState) (id : String) (o : RemoveOracle) :
    SvcState × Bool :=
  if s.qrFiles id then
    if o.qrRemoveThrows then (s, false)
    else ({ s with qrFiles := bclear s.qrFiles id }, true)
  else (s, true)

/-- `removeConnection` (lines 615-653).  The body is one `try` block: a
throw at any point jumps to the `catch`, which logs and returns `false`,
leaving every step after the throwing one unexecuted.  In particular a
throwing `socket.logout()` happens *before* the two map deletions, so those
deletions do not run in that case. -/
def removeConnection (s : SvcState) (id : String) (o : RemoveOracle) :
    SvcState × Bool :=
  if (s.connections id).isSome ∧ o.logoutThrows then
    (s, false)
  else
    let s1 : SvcState :=
      { s with connections := tdel s.connections id
               connectionStatus := tdel s.connectionStatus id }
    if s1.authDirs id then
      if o.authRemoveThrows then (s1, false)
      else removeQrFileStep { s1 with authDirs := bclear s1.authDirs id } id o
    else removeQrFileStep s1 id o

/-- What `createConnection` (lines 72-134) does before any socket work: the
three guard checks dispatching to an existing in-flight promise, an
existing status, a thrown "being processed" error, or the internal creation
sequence. -/
inductive CreateDispatch where
  | existingPromise (p : Nat)
  | currentStatus (st : ConnectionStatus)
  | throwBeingProcessed
  | runInternal
deriving DecidableEq, Repr

/-- The guard logic of `createConnection` (lines 72-125): return the
in-flight promise if one is registered; else under an active lock return
the registered status or throw; else return the current status when it is
connecting/connected and this is not a reconnection, or when it is
connecting and this is a reconnection; else fall through to
`_createConnectionInternal`. -/
def createConnectionDispatch (s : SvcState) (id : String)
    (isReconnection : Bool) : CreateDispatch :=
  match s.connectionPromises id with
  | some p => .existingPromise p
  | none =>
    if (s.connectionLocks id).getD false then
      match s.connectionStatus id with
      | some st => .currentStatus st
      | none => .throwBeingProcessed
    else
      match s.connectionStatus id with
      | some st =>
        if ¬isReconnection ∧
            (st.status = .connecting ∨ st.status = .connected) then
          .currentStatus st
        else if isReconnection ∧ st.status = .connecting then
          .currentStatus st
        else .runInternal
      | none => .runInternal

/-- Registering the freshly created in-flight promise under the key
(line 125), before awaiting it. -/
def registerPromise (s : SvcState) (id : String) (p : Nat) : SvcState :=
  { s with connectionPromises := tset s.connectionPromises id p }

/-- The `try { await connectionPromise } finally { delete }` tail of
`createConnection` (lines 127-133): whatever the outcome of the internal
creation sequence — a status or a thrown error — the in-flight promise
entry is deleted and the outcome is propagated unchanged. -/
def createConnectionFinish (s : SvcState) (id : String)
    (outcome : Except String ConnectionStatus) :
    SvcState × Except String ConnectionStatus :=
  ({ s with connectionPromises := tdel s.connectionPromises id }, outcome)

/-- Outcome of the guard prefix of `_createConnectionInternal`
(lines 136-197), before a socket is actually made: an early return of the
registered status when a socket already exists (line 144), the
`throw new Error("Conexão já existe")` (line 174), or proceeding to create
a socket — recording whether the stale `auth/<id>` folder was removed
(lines 180-185, only on non-reconnection creates). -/
inductive InternalDispatch where
  | earlyReturn (st : Option ConnectionStatus)
  | throwAlreadyExists
  | proceed (cleanedOldAuth : Bool)
deriving DecidableEq, Repr

/-- The guard prefix of `_createConnectionInternal` (lines 136-197).  The
early return at line 144 fires whenever `connections.has(id)`, so the
non-reconnection `throw new Error("Conexão já existe")` at line 174 — which
also requires `connections.has(id)` — can never be reached. -/
def internalDispatch (s : SvcState) (id : String) (isReconnection : Bool) :
    InternalDispatch :=
  if (s.connections id).isSome then
    .earlyReturn (s.connectionStatus id)
  else if ¬isReconnection ∧ (s.connections id).isSome then
    .throwAlreadyExists
  else
    .proceed (!isReconnection && s.authDirs id)

/-- The `connection` field of a `connection.update` event ("open" /
"close"; the constructor names avoid the Lean keyword `open`). -/
inductive ConnPhase where
  | opened
  | closed
deriving DecidableEq, Repr

/-- The parts of a `connection.update` payload the handler reads: the
optional QR string, the optional connection phase, and the close error
(`lastDisconnect.error`), reduced to its Boom status code and the two
message tests the code performs (`includes("405")`,
`includes("SessionEntry")`). -/
structure UpdateInfo where
  qr : Option String := none
  connection : Option ConnPhase := none
  errorCode : Option Nat := none
  msgHas405 : Bool := false
  msgHasSessionEntry : Bool := false
deriving DecidableEq, Repr

/-- Work the handler hands to `setTimeout`: the delayed
`createConnection(id, true)` of the reconnection path (lines 401-420). -/
inductive ScheduledTask where
  | reconnect (id : String)
deriving DecidableEq, Repr

/-- Result of one run of `handleConnectionUpdate`: the new service state,
the scheduled task if any, and the arguments of the
`connectionStatus.set` calls the close/open branches performed, in
order (the last such write is the status value the branch stamped on the
key, even when a later `removeConnection` in the same branch dropped the
entry again). -/
structure UpdateResult where
  state : SvcState
  scheduled : Option ScheduledTask
  statusWrites : List ConnectionStatus

/-- The `connection === "close"` branch of `handleConnectionUpdate`
(lines 318-430).  `st` is the status object re-read at line 327.  The four
sub-branches in source order: QR-timeout closes (code 408 or a "timeout"
diagnostic already recorded), critical errors (badSession / forbidden /
"405"), the reconnectable allow-list with its bounded counter, and the
default fall-through that just stores the status back. -/
def handleClose (s : SvcState) (id : String) (st : ConnectionStatus)
    (u : UpdateInfo) (o : RemoveOracle) : UpdateResult :=
  if u.errorCode = some 408 ∨ st.error = some "timeout" then
    let st1 : ConnectionStatus :=
      { st with status := .disconnected, error := some "timeout" }
    let s1 := (removeConnection s id o).1
    let s2 : SvcState :=
      { s1 with connections := tdel s1.connections id
                connectionStatus := tset s1.connectionStatus id st1
                connectionLocks := tdel s1.connectionLocks id }
    ⟨s2, none, [st1]⟩
  else if u.errorCode = some DisconnectReason.badSession ∨
      u.errorCode = some DisconnectReason.forbidden ∨ u.msgHas405 then
    let st1 : ConnectionStatus :=
      { st with status := .error,
                error := some "Sessão inválida ou número proibido" }
    let s1 := (removeConnection s id o).1
    let s2 : SvcState :=
      { s1 with connectionStatus := tset s1.connectionStatus id st1
                connectionLocks := tdel s1.connectionLocks id }
    ⟨s2, none, [st1]⟩
  else if u.errorCode.any (fun c => reconectaveis.contains c) then
    let code := u.errorCode.getD 0
    let attempts := (s.reconnectAttempts id).getD 0
    if attempts ≥ MAX_RECONNECT_ATTEMPTS then
      let st1 : ConnectionStatus :=
        { st with status := .error,
                  error := some ("Falha após " ++ toString attempts ++
                    " tentativas (" ++ toString code ++ ")") }
      let s1 : SvcState :=
        { s with connectionStatus := tset s.connectionStatus id st1
                 reconnectAttempts := tdel s.reconnectAttempts id
                 connectionLocks := tdel s.connectionLocks id }
      let s2 := (removeConnection s1 id o).1
      ⟨s2, none, [st1]⟩
    else
      let st1 : ConnectionStatus :=
        { st with status := .disconnected,
                  error := some ("Erro " ++ toString code ++
                    " - reconectando...") }
      let s1 : SvcState :=
        { s with reconnectAttempts :=
                   tset s.reconnectAttempts id (attempts + 1)
                 connectionStatus := tset s.connectionStatus id st1
                 connections := tdel s.connections id
                 connectionLocks := tdel s.connectionLocks id }
      ⟨s1, some (.reconnect id), [st1]⟩
  else
    ⟨{ s with connectionStatus := tset s.connectionStatus id st }, none,
     [st]⟩

/-- The `connection === "open"` branch (lines 431-448): mark connected,
clear the QR and diagnostic, read the paired phone number from
`socket.user.id.split("@")[0].split(":")[0]`, store the status, and delete
the reconnect counter. -/
def handleOpen (s : SvcState) (id : String) (st : ConnectionStatus) :
    UpdateResult :=
  let st1 : ConnectionStatus :=
    { st with status := .connected, qrCode := none, error := none }
  let st2 : ConnectionStatus :=
    match s.connections id with
    | some h =>
      match h.userId with
      | some uid =>
        let num := (((uid.splitOn "@").headD "").splitOn ":").headD ""
        { st1 with phoneNumber := some num }
      | none => st1
    | none => st1
  ⟨{ s with connectionStatus := tset s.connectionStatus id st2
            reconnectAttempts := tdel s.reconnectAttempts id },
   none, [st2]⟩

/-- `handleConnectionUpdate` (lines 294-449).  Returns unchanged when no
status is registered (line 301).  A QR payload is recorded on the status
object first (lines 303-316; in the source this is a mutation of the very
object held by the map, so the registry sees it immediately), then the
close/open branches run on the updated object. -/
def handleConnectionUpdate (s : SvcState) (id : String) (u : UpdateInfo)
    (o : RemoveOracle) : UpdateResult :=
  match s.connectionStatus id with
  | none => ⟨s, none, []⟩
  | some st0 =>
    let st1 : ConnectionStatus :=
      match u.qr with
      | some q => { st0 with qrCode := some q, status := .connecting }
      | none => st0
    let s1 : SvcState :=
      match u.qr with
      | some _ =>
        { s with connectionStatus := tset s.connectionStatus id st1 }
      | none => s
    match u.connection with
    | some .closed => handleClose s1 id st1 u o
    | some .opened => handleOpen s1 id st1
    | none => ⟨s1, none, []⟩

/-- The QR wait-timer callback installed at lines 228-245, run when the
5-minute window elapses before pairing: end the socket and drop it from
ownership, release the global QR lock, stamp the status with
`status = "error"`, `error = "timeout"`, and release the creation lock.
It schedules nothing (second component). -/
def qrTimeoutFire (s : SvcState) (id : String) :
    SvcState × Option ScheduledTask :=
  let s1 : SvcState :=
    { s with connections := tdel s.connections id
             qrLocks := tdel s.qrLocks id }
  let s2 : SvcState :=
    match s1.connectionStatus id with
    | some st =>
      let st1 : ConnectionStatus :=
        { st with status := .error, error := some "timeout" }
      { s1 with connectionStatus := tset s1.connectionStatus id st1 }
    | none => s1
  ({ s2 with connectionLocks := tdel s2.connectionLocks id }, none)

/-- The per-epoch closure state of the `connection.update` listener
(lines 210-212): the `qrShown` already-shown flag and whether the
`qrTimeout` timer is currently armed. -/
structure EpochState where
  qrShown : Bool := false
  qrTimeoutActive : Bool := false
deriving DecidableEq, Repr

/-- The listener body of lines 216-273 before it delegates to
`handleConnectionUpdate`: surface the QR exactly when one is present, the
epoch flag `qrShown` is still false and no global QR lock is held (setting
both and arming the timer); then on open/close with an armed timer, cancel
it and release the QR and creation locks.  The boolean result says whether
this event surfaced the QR (the guarded `qrcode.generate` block ran). -/
def connectionUpdatePrelude (s : SvcState) (e : EpochState) (id : String)
    (u : UpdateInfo) : SvcState × EpochState × Bool :=
  let fire := u.qr.isSome && !e.qrShown && !((s.qrLocks id).getD false)
  let s1 := if fire then { s with qrLocks := tset s.qrLocks id true } else s
  let e1 :=
    if fire then { e with qrShown := true, qrTimeoutActive := true } else e
  let s2 :=
    if u.connection = some ConnPhase.opened ∧ e1.qrTimeoutActive then
      { s1 with qrLocks := tdel s1.qrLocks id
                connectionLocks := tdel s1.connectionLocks id }
    else s1
  let e2 :=
    if u.connection = some ConnPhase.opened ∧ e1.qrTimeoutActive then
      { e1 with qrTimeoutActive := false }
    else e1
  let s3 :=
    if u.connection = some ConnPhase.closed ∧ e2.qrTimeoutActive then
      { s2 with qrLocks := tdel s2.qrLocks id
                connectionLocks := tdel s2.connectionLocks id }
    else s2
  let e3 :=
    if u.connection = some ConnPhase.closed ∧ e2.qrTimeoutActive then
      { e2 with qrTimeoutActive := false }
    else e2
  (s3, e3, fire)

/-- How many events of the list surface the QR when the listener processes
them in order from the given service and epoch state. -/
def surfaceCount (s : SvcState) (e : EpochState) (id : String) :
    List UpdateInfo → Nat
  | [] => 0
  | u :: us =>
    let r := connectionUpdatePrelude s e id u
    (if r.2.2 then 1 else 0) + surfaceCount r.1 r.2.1 id us

/- Destination-number handling of the three send operations.  Strings are
modelled as `List Char`, so that the TypeScript primitives map directly:
`startsWith p` ≙ `p.isPrefixOf`, `slice(a)` ≙ `drop a`,
`slice(a, b)` ≙ `(drop a).take (b - a)`, `includes("@")` ≙ `'@' ∈ ·`. -/

/-- The characters of the literal `"@s.whatsapp.net"` suffix. -/
def jidSuffix : List Char := "@s.whatsapp.net".toList

/-- The JID derivation inside `sendTextMessage` (lines 673-689): drop the
ninth digit of a Brazilian mobile number given with the extra "9", then
append the server suffix unless the number already carries a "@". -/
def sendTextMessageJid (toNumber : List Char) : List Char :=
  let processedNumber :=
    if ['5', '5'].isPrefixOf toNumber then
      let localNumber := toNumber.drop 4
      if localNumber.length = 9 ∧ ['9'].isPrefixOf localNumber then
        ['5', '5'] ++ (toNumber.drop 2).take 2 ++ localNumber.drop 1
      else toNumber
    else toNumber
  if '@' ∈ processedNumber then processedNumber
  else processedNumber ++ jidSuffix

/-- The JID derivation inside `sendMediaMessage` (lines 721-737); the
source repeats the same block verbatim. -/
def sendMediaMessageJid (toNumber : List Char) : List Char :=
  let processedNumber :=
    if ['5', '5'].isPrefixOf toNumber then
      let localNumber := toNumber.drop 4
      if localNumber.length = 9 ∧ ['9'].isPrefixOf localNumber then
        ['5', '5'] ++ (toNumber.drop 2).take 2 ++ localNumber.drop 1
      else toNumber
    else toNumber
  if '@' ∈ processedNumber then processedNumber
  else processedNumber ++ jidSuffix

/-- The JID derivation inside `sendMediaMessageBase64` (lines 802-818);
again the identical block. -/
def sendMediaMessageBase64Jid (toNumber : List Char) : List Char :=
  let processedNumber :=
    if ['5', '5'].isPrefixOf toNumber then
      let localNumber := toNumber.drop 4
      if localNumber.length = 9 ∧ ['9'].isPrefixOf localNumber then
        ['5', '5'] ++ (toNumber.drop 2).take 2 ++ localNumber.drop 1
      else toNumber
    else toNumber
  if '@' ∈ processedNumber then processedNumber
  else processedNumber ++ jidSuffix

/-- Modelled from the claim's wording, for comparison with the code-derived
functions above: transform the number when it starts with "55" and the
substring after its first four characters has length 9 and starts with "9"
(dropping that ninth digit, keeping characters 2..3 and the remaining 8),
leave every other number unchanged, and append "@s.whatsapp.net" exactly
when the *input* number contains no "@". -/
def claimTenJid (number : List Char) : List Char :=
  let transformed :=
    if ['5', '5'].isPrefixOf number ∧ (number.drop 4).length = 9 ∧
        ['9'].isPrefixOf (number.drop 4) then
      ['5', '5'] ++ (number.drop 2).take 2 ++ (number.drop 4).drop 1
    else number
  if '@' ∈ number then transformed else transformed ++ jidSuffix

/- Concrete service states used to instantiate the theorems below. -/

/-- A state whose only content is an in-flight creation promise (id 7)
registered for key "a". -/
def c1State : SvcState := registerPromise SvcState.empty "a" 7

/-- Key "k": live handle, connected status, reconnect counter at the
bound 3. -/
def c2State : SvcState :=
  { SvcState.empty with
      connections := tset SvcState.empty.connections "k" {}
      connectionStatus :=
        tset SvcState.empty.connectionStatus "k"
          { id := "k", status := .connected }
      reconnectAttempts := tset SvcState.empty.reconnectAttempts "k" 3 }

/-- Key "k" mid-provisioning: live handle, connecting status, creation and
QR locks held, credential folder `auth/k` on disk. -/
def c3State : SvcState :=
  { SvcState.empty with
      connections := tset SvcState.empty.connections "k" {}
      connectionStatus :=
        tset SvcState.empty.connectionStatus "k"
          { id := "k", status := .connecting }
      connectionLocks := tset SvcState.empty.connectionLocks "k" true
      qrLocks := tset SvcState.empty.qrLocks "k" true
      authDirs := fun q => q == "k" }

/-- Key "k": live handle, connected status, no reconnect counter,
credential folder on disk. -/
def c4State : SvcState :=
  { SvcState.empty with
      connections := tset SvcState.empty.connections "k" {}
      connectionStatus :=
        tset SvcState.empty.connectionStatus "k"
          { id := "k", status := .connected }
      authDirs := fun q => q == "k" }

/-- Key "k": live handle, connected status, counter at the bound 3. -/
def c6State : SvcState :=
  { SvcState.empty with
      connections := tset SvcState.empty.connections "k" {}
      connectionStatus :=
        tset SvcState.empty.connectionStatus "k"
          { id := "k", status := .connected }
      reconnectAttempts := tset SvcState.empty.reconnectAttempts "k" 3 }

/-- Key "k": live handle, connected status, counter 1. -/
def c6WitState : SvcState :=
  { SvcState.empty with
      connections := tset SvcState.empty.connections "k" {}
      connectionStatus :=
        tset SvcState.empty.connectionStatus "k"
          { id := "k", status := .connected }
      reconnectAttempts := tset SvcState.empty.reconnectAttempts "k" 1 }

/-- Key "k": live handle with a *disconnected* status registered, the case
where a non-reconnection create reaches `_createConnectionInternal`. -/
def c7State : SvcState :=
  { SvcState.empty with
      connections := tset SvcState.empty.connections "k" {}
      connectionStatus :=
        tset SvcState.empty.connectionStatus "k"
          { id := "k", status := .disconnected } }

/-- Key "k": live handle and registered status, nothing on disk. -/
def c8State : SvcState :=
  { SvcState.empty with
      connections := tset SvcState.empty.connections "k" {}
      connectionStatus :=
        tset SvcState.empty.connectionStatus "k"
          { id := "k", status := .connected } }

/-- The condition under which the `connection === "close"` handler reaches
its reconnectable-codes branch: neither the QR-timeout test (code 408 or a
recorded "timeout"), nor the critical-error test (badSession / forbidden /
a "405" message), while the close code is on the `reconectaveis`
allow-list. -/
def reachesRetryBranch (st : ConnectionStatus) (u : UpdateInfo) : Prop :=
  ¬(u.errorCode = some 408 ∨ st.error = some "timeout")
  ∧ ¬(u.errorCode = some DisconnectReason.badSession ∨
      u.errorCode = some DisconnectReason.forbidden ∨ u.msgHas405 = true)
  ∧ u.errorCode.any (fun c => reconectaveis.contains c) = true

/- Helper lemmas about the table operations and about which state fields
`removeConnection` can touch. -/

theorem tset_same {α : Type} (m : String → Option α) (k : String) (v : α) :
    tset m k v k = some v := by
  simp [tset]

theorem tdel_same {α : Type} (m : String → Option α) (k : String) :
    tdel m k k = none := by
  simp [tdel]

theorem removeQrFileStep_connections (s : SvcState) (id : String)
    (o : RemoveOracle) :
    (removeQrFileStep s id o).1.connections = s.connections := by
  unfold removeQrFileStep
  split_ifs <;> rfl

theorem removeQrFileStep_connectionStatus (s : SvcState) (id : String)
    (o : RemoveOracle) :
    (removeQrFileStep s id o).1.connectionStatus = s.connectionStatus := by
  unfold removeQrFileStep
  split_ifs <;> rfl

theorem removeQrFileStep_reconnectAttempts (s : SvcState) (id : String)
    (o : RemoveOracle) :
    (removeQrFileStep s id o).1.reconnectAttempts = s.reconnectAttempts := by
  unfold removeQrFileStep
  split_ifs <;> rfl

theorem removeQrFileStep_authDirs (s : SvcState) (id : String)
    (o : RemoveOracle) :
    (removeQrFileStep s id o).1.authDirs = s.authDirs := by
  unfold removeQrFileStep
  split_ifs <;> rfl

theorem removeConnection_reconnectAttempts (s : SvcState) (id : String)
    (o : RemoveOracle) :
    (removeConnection s id o).1.reconnectAttempts = s.reconnectAttempts := by
  unfold removeConnection
  dsimp only
  split_ifs <;> simp [removeQrFileStep_reconnectAttempts]

theorem removeConnection_status_of_no_throw (s : SvcState) (id : String)
    (o : RemoveOracle)
    (h : ¬((s.connections id).isSome ∧ o.logoutThrows = true)) :
    (removeConnection s id o).1.connectionStatus id = none
    ∧ (removeConnection s id o).1.connections id = none := by
  unfold removeConnection
  dsimp only
  rw [if_neg h]
  split_ifs <;> simp [removeQrFileStep_connectionStatus,
    removeQrFileStep_connections, tdel_same]

/-- C1: whenever an in-flight creation promise is registered for a key,
`createConnection` returns that very promise (so all callers during the
in-flight window observe one outcome and no second creation sequence
starts), and the `finally` block removes the in-flight entry on
completion and propagates the outcome unchanged, whether the creation
sequence returned a status or threw. -/
theorem c1_inflight_promise_dedup_and_cleanup :
    (∀ (s : SvcState) (id : String) (isReconnection : Bool) (p : Nat),
        s.connectionPromises id = some p →
        createConnectionDispatch s id isReconnection = .existingPromise p)
    ∧ (∀ (s : SvcState) (id : String)
        (outcome : Except String ConnectionStatus),
        (createConnectionFinish s id outcome).1.connectionPromises id = none
        ∧ (createConnectionFinish s id outcome).2 = outcome) := by
  constructor
  · intro s id isReconnection p h
    unfold createConnectionDispatch
    rw [h]
  · intro s id outcome
    exact ⟨tdel_same s.connectionPromises id, rfl⟩

/-- C1 witness: with promise 7 in flight for key "a", a concurrent create
returns promise 7, and finishing with a thrown error clears the entry. -/
theorem c1_witness :
    createConnectionDispatch c1State "a" false = .existingPromise 7
    ∧ (createConnectionFinish c1State "a"
        (.error "fail")).1.connectionPromises "a" = none := by
  refine ⟨c1_inflight_promise_dedup_and_cleanup.1 c1State "a" false 7 ?_,
    (c1_inflight_promise_dedup_and_cleanup.2 c1State "a" (.error "fail")).1⟩
  decide

/-- C7 counterexample: key "k" has a live handle and a registered
(disconnected) status; `createConnection("k", false)` dispatches into
`_createConnectionInternal`, whose socket-exists guard returns the current
status — it does not throw the "Conexão já existe" (AlreadyExists)
error. -/
theorem c7_counterexample :
    (c7State.connections "k").isSome = true
    ∧ createConnectionDispatch c7State "k" false = .runInternal
    ∧ internalDispatch c7State "k" false
        = .earlyReturn (some { id := "k", status := .disconnected })
    ∧ internalDispatch c7State "k" false ≠ .throwAlreadyExists := by
  decide

/-- C7 amended: a non-reconnection create for a key with a live handle
returns the key's currently registered status through the socket-exists
guard of `_createConnectionInternal` (creating no second handle), and the
`AlreadyExists` throw is unreachable for every state and flag, because it
would require a live handle that the preceding guard has already
intercepted. -/
theorem c7_live_handle_create_returns_status :
    (∀ (s : SvcState) (id : String),
        (s.connections id).isSome →
        internalDispatch s id false = .earlyReturn (s.connectionStatus id))
    ∧ (∀ (s : SvcState) (id : String) (isReconnection : Bool),
        internalDispatch s id isReconnection ≠ .throwAlreadyExists) := by
  constructor
  · intro s id h
    unfold internalDispatch
    rw [if_pos h]
  · intro s id isReconnection
    unfold internalDispatch
    split_ifs with h1 h2
    · simp
    · exact absurd h2.2 (by simp [h1])
    · simp

/-- C7 witness: instantiating the amended statement at the concrete
counterexample state. -/
theorem c7_witness :
    internalDispatch c7State "k" false
      = .earlyReturn (c7State.connectionStatus "k")
    ∧ internalDispatch c7State "k" true ≠ .throwAlreadyExists := by
  exact ⟨c7_live_handle_create_returns_status.1 c7State "k" (by decide),
    c7_live_handle_create_returns_status.2 c7State "k" true⟩

/-- C8 counterexample: key "k" has a live handle and a registered status;
when the graceful `socket.logout()` throws, `removeConnection` returns
false and the handle and the status are both still registered — the
sign-out failure does prevent removal, and status("k") is not NotFound
afterwards. -/
theorem c8_counterexample :
    (removeConnection c8State "k" { logoutThrows := true }).2 = false
    ∧ (removeConnection c8State "k"
        { logoutThrows := true }).1.connectionStatus "k"
        = some { id := "k", status := .connected }
    ∧ (removeConnection c8State "k"
        { logoutThrows := true }).1.connections "k" ≠ none := by
  decide

/-- C8 amended: `removeConnection` removes the handle from ownership and
the status from the registry whenever the graceful sign-out does not throw
(in particular for every key without a live handle), even when the later
filesystem cleanup steps throw — status(K) is NotFound afterwards.  But a
throwing sign-out aborts the removal: the call returns false and the state
is left untouched. -/
theorem c8_removal_unless_logout_throws :
    ∀ (s : SvcState) (id : String) (o : RemoveOracle),
      (¬((s.connections id).isSome ∧ o.logoutThrows = true) →
        (removeConnection s id o).1.connectionStatus id = none
        ∧ (removeConnection s id o).1.connections id = none)
      ∧ ((s.connections id).isSome ∧ o.logoutThrows = true →
        removeConnection s id o = (s, false)) := by
  intro s id o
  constructor
  · intro h
    exact removeConnection_status_of_no_throw s id o h
  · intro h
    unfold removeConnection
    rw [if_pos h]

/-- C8 witness: instantiating the amended statement where the sign-out
succeeds (handle present, nothing throws): the status entry is gone. -/
theorem c8_witness :
    (removeConnection c8State "k" {}).1.connectionStatus "k" = none
    ∧ (removeConnection c8State "k" {}).1.connections "k" = none := by
  exact (c8_removal_unless_logout_throws c8State "k" {}).1 (by decide)

/-- C9: for an unknown key (no handle, no status) `removeConnection`
still returns true when none of its cleanup steps throws — there is no
not-found failure — and it returns false only when one of the filesystem
cleanup steps throws. -/
theorem c9_remove_unknown_key_reports_success :
    ∀ (s : SvcState) (id : String) (o : RemoveOracle),
      s.connections id = none → s.connectionStatus id = none →
      ((o.authRemoveThrows = false ∧ o.qrRemoveThrows = false) →
        (removeConnection s id o).2 = true)
      ∧ ((removeConnection s id o).2 = false →
        o.authRemoveThrows = true ∨ o.qrRemoveThrows = true) := by
  intro s id o hconn _hstatus
  unfold removeConnection removeQrFileStep
  rw [if_neg (by simp [hconn])]
  dsimp only
  constructor
  · rintro ⟨ha, hq⟩
    rw [ha, hq]
    split_ifs <;> simp_all
  · intro hfalse
    by_contra hcontra
    push_neg at hcontra
    simp only [Bool.not_eq_true] at hcontra
    rw [hcontra.1, hcontra.2] at hfalse
    split_ifs at hfalse <;> simp_all

/-- C9 witness: removing a key entirely unknown to the empty service state
with no step throwing reports success. -/
theorem c9_witness :
    (removeConnection SvcState.empty "ghost" {}).2 = true := by
  exact (c9_remove_unknown_key_reports_success SvcState.empty "ghost" {}
    rfl rfl).1 ⟨rfl, rfl⟩

theorem handleConnectionUpdate_close_eq (s : SvcState) (id : String)
    (st : ConnectionStatus) (u : UpdateInfo) (o : RemoveOracle)
    (hst : s.connectionStatus id = some st) (hqr : u.qr = none)
    (hconn : u.connection = some .closed) :
    handleConnectionUpdate s id u o = handleClose s id st u o := by
  unfold handleConnectionUpdate
  rw [hst]
  dsimp only
  rw [hqr, hconn]

theorem handleConnectionUpdate_open_eq (s : SvcState) (id : String)
    (st : ConnectionStatus) (u : UpdateInfo) (o : RemoveOracle)
    (hst : s.connectionStatus id = some st) (hqr : u.qr = none)
    (hconn : u.connection = some .opened) :
    handleConnectionUpdate s id u o = handleOpen s id st := by
  unfold handleConnectionUpdate
  rw [hst]
  dsimp only
  rw [hqr, hconn]

/-- C2: along consecutive reconnectable-code disconnects the per-key
counter never exceeds the bound 3 (each such step preserves `≤ 3`; below
the bound it sets exactly `attempts + 1` and schedules a reconnection);
and the disconnect that finds the counter at the bound performs the
terminal transition: it writes the status with `status = "error"` and the
exhausted-retries diagnostic, deletes the counter, and schedules no
further reconnection attempt. -/
theorem c2_reconnect_counter_bounded :
    ∀ (s : SvcState) (id : String) (st : ConnectionStatus) (u : UpdateInfo)
      (o : RemoveOracle) (c : Nat),
      s.connectionStatus id = some st →
      u.qr = none → u.connection = some .closed → u.errorCode = some c →
      c ≠ 408 → st.error ≠ some "timeout" →
      c ≠ DisconnectReason.badSession → c ≠ DisconnectReason.forbidden →
      u.msgHas405 = false → reconectaveis.contains c = true →
      (((s.reconnectAttempts id).getD 0 ≤ MAX_RECONNECT_ATTEMPTS →
        ((handleConnectionUpdate s id u o).state.reconnectAttempts id).getD 0
          ≤ MAX_RECONNECT_ATTEMPTS)
      ∧ ((s.reconnectAttempts id).getD 0 < MAX_RECONNECT_ATTEMPTS →
        (handleConnectionUpdate s id u o).state.reconnectAttempts id
            = some ((s.reconnectAttempts id).getD 0 + 1)
        ∧ (handleConnectionUpdate s id u o).scheduled
            = some (.reconnect id))
      ∧ ((s.reconnectAttempts id).getD 0 = MAX_RECONNECT_ATTEMPTS →
        (handleConnectionUpdate s id u o).state.reconnectAttempts id = none
        ∧ (handleConnectionUpdate s id u o).scheduled = none
        ∧ (handleConnectionUpdate s id u o).statusWrites
            = [{ st with status := .error,
                         error := some ("Falha após "
                           ++ toString ((s.reconnectAttempts id).getD 0)
                           ++ " tentativas (" ++ toString c ++ ")") }])) := by
  intro s id st u o c hst hqr hconn hcode h408 hto hbs hfb h405 hmem
  rw [handleConnectionUpdate_close_eq s id st u o hst hqr hconn]
  unfold handleClose
  rw [if_neg (by simp [hcode, h408, hto]),
    if_neg (by simp [hcode, hbs, hfb, h405]),
    if_pos (by rw [hcode]; simpa using hmem)]
  dsimp only
  simp only [hcode, Option.getD_some]
  refine ⟨?_, ?_, ?_⟩
  · intro _hle
    by_cases hge : (s.reconnectAttempts id).getD 0 ≥ MAX_RECONNECT_ATTEMPTS
    · rw [if_pos hge]
      simp [removeConnection_reconnectAttempts, tdel_same]
    · rw [if_neg hge]
      simp only [MAX_RECONNECT_ATTEMPTS] at hge ⊢
      simp [tset_same]
      omega
  · intro hlt
    rw [if_neg (by omega)]
    exact ⟨by simp [tset_same], rfl⟩
  · intro heq
    rw [if_pos (by omega)]
    exact ⟨by simp [removeConnection_reconnectAttempts, tdel_same], rfl, rfl⟩

/-- C2 witness: counter at the bound 3 for key "k", a 515 (stream error)
close arrives: the counter is deleted, nothing is scheduled, and the
written status carries the exhausted-retries diagnostic. -/
theorem c2_witness :
    (handleConnectionUpdate c2State "k"
        { connection := some .closed, errorCode := some 515 }
        {}).state.reconnectAttempts "k" = none
    ∧ (handleConnectionUpdate c2State "k"
        { connection := some .closed, errorCode := some 515 }
        {}).scheduled = none
    ∧ (handleConnectionUpdate c2State "k"
        { connection := some .closed, errorCode := some 515 }
        {}).statusWrites
        = [{ id := "k", status := .error,
             error := some ("Falha após "
               ++ toString ((c2State.reconnectAttempts "k").getD 0)
               ++ " tentativas (" ++ toString 515 ++ ")") }] := by
  exact (c2_reconnect_counter_bounded c2State "k"
    { id := "k", status := .connected }
    { connection := some .closed, errorCode := some 515 } {} 515
    (by decide) rfl rfl rfl (by decide) (by decide) (by decide) (by decide)
    rfl (by decide)).2.2 (by decide)

/-- C4 counterexample: key "k" is connected with a live handle; the
transport closes with the logged-out reason (401).  Contrary to the
CleanTerminal claim, the manager schedules a reconnection and stamps the
status "disconnected" — it never becomes Logged-Out. -/
theorem c4_counterexample :
    (handleConnectionUpdate c4State "k"
        { connection := some .closed,
          errorCode := some DisconnectReason.loggedOut }
        {}).scheduled = some (.reconnect "k")
    ∧ ((handleConnectionUpdate c4State "k"
        { connection := some .closed,
          errorCode := some DisconnectReason.loggedOut }
        {}).state.connectionStatus "k").map ConnectionStatus.status
        = some .disconnected := by
  decide

/-- C4 amended: a close with the logged-out reason code (401) is treated
as *retryable*, not CleanTerminal: with fewer than 3 recorded attempts the
manager increments the per-key counter, sets the status to "disconnected"
(never to "loggedOut"), schedules a reconnection, and does not purge the
persisted credential folders. -/
theorem c4_loggedOut_is_retryable :
    ∀ (s : SvcState) (id : String) (st : ConnectionStatus)
      (o : RemoveOracle),
      s.connectionStatus id = some st →
      st.error ≠ some "timeout" →
      (s.reconnectAttempts id).getD 0 < MAX_RECONNECT_ATTEMPTS →
      (handleConnectionUpdate s id
          { connection := some .closed,
            errorCode := some DisconnectReason.loggedOut } o).scheduled
          = some (.reconnect id)
      ∧ ((handleConnectionUpdate s id
          { connection := some .closed,
            errorCode := some DisconnectReason.loggedOut }
          o).state.connectionStatus id).map ConnectionStatus.status
          = some .disconnected
      ∧ (handleConnectionUpdate s id
          { connection := some .closed,
            errorCode := some DisconnectReason.loggedOut }
          o).state.reconnectAttempts id
          = some ((s.reconnectAttempts id).getD 0 + 1)
      ∧ (∀ q, (handleConnectionUpdate s id
          { connection := some .closed,
            errorCode := some DisconnectReason.loggedOut }
          o).state.authDirs q = s.authDirs q) := by
  intro s id st o hst hto hlt
  rw [handleConnectionUpdate_close_eq s id st _ o hst rfl rfl]
  unfold handleClose
  rw [if_neg (by simp [hto, DisconnectReason.loggedOut]),
    if_neg (by simp [DisconnectReason.loggedOut, DisconnectReason.badSession,
      DisconnectReason.forbidden]),
    if_pos (by simp [Option.any]; decide)]
  dsimp only
  rw [if_neg (by simpa [MAX_RECONNECT_ATTEMPTS] using Nat.not_le.mpr hlt)]
  exact ⟨rfl, by simp [tset_same], by simp [tset_same], fun q => rfl⟩

/-- C4 witness: instantiating the amended statement at the concrete state
(connected, counter absent). -/
theorem c4_witness :
    (handleConnectionUpdate c4State "k"
        { connection := some .closed,
          errorCode := some DisconnectReason.loggedOut } {}).scheduled
        = some (.reconnect "k")
    ∧ (handleConnectionUpdate c4State "k"
        { connection := some .closed,
          errorCode := some DisconnectReason.loggedOut }
        {}).state.reconnectAttempts "k"
        = some ((c4State.reconnectAttempts "k").getD 0 + 1) := by
  have h := c4_loggedOut_is_retryable c4State "k"
    { id := "k", status := .connected } {} (by decide) (by decide) (by decide)
  exact ⟨h.1, h.2.2.1⟩

/-- C3: when the QR wait timer elapses before pairing, the callback
disposes the handle, stamps the status with the timeout error
(`status = "error"`, `error = "timeout"` — the code's representation of
Provisioning-Timeout) and schedules nothing; the close event the
termination triggers (code 408) schedules nothing either; and a
subsequent explicit non-reconnection create dispatches into the internal
creation sequence and proceeds, removing the stale credential folder
(fresh epoch). -/
theorem c3_qr_timeout_is_terminal_until_fresh_create :
    ∀ (s : SvcState) (id : String) (st : ConnectionStatus)
      (o : RemoveOracle),
      s.connectionStatus id = some st →
      s.connectionPromises id = none →
      s.authDirs id = true →
      (qrTimeoutFire s id).1.connections id = none
      ∧ (qrTimeoutFire s id).1.connectionStatus id
          = some { st with status := .error, error := some "timeout" }
      ∧ (qrTimeoutFire s id).2 = none
      ∧ (handleConnectionUpdate (qrTimeoutFire s id).1 id
          { connection := some .closed, errorCode := some 408 } o).scheduled
          = none
      ∧ createConnectionDispatch (qrTimeoutFire s id).1 id false
          = .runInternal
      ∧ internalDispatch (qrTimeoutFire s id).1 id false = .proceed true := by
  intro s id st o hst hprom hauth
  have hconnNone : (qrTimeoutFire s id).1.connections id = none := by
    unfold qrTimeoutFire
    dsimp only
    rw [hst]
    simp [tdel_same]
  have hfire : (qrTimeoutFire s id).1.connectionStatus id
      = some { st with status := .error, error := some "timeout" } := by
    unfold qrTimeoutFire
    dsimp only
    rw [hst]
    simp [tset_same]
  have hpromN : (qrTimeoutFire s id).1.connectionPromises id = none := by
    unfold qrTimeoutFire
    dsimp only
    rw [hst]
    simpa using hprom
  have hlockN : (qrTimeoutFire s id).1.connectionLocks id = none := by
    unfold qrTimeoutFire
    dsimp only
    rw [hst]
    simp [tdel_same]
  have hauthT : (qrTimeoutFire s id).1.authDirs id = true := by
    unfold qrTimeoutFire
    dsimp only
    rw [hst]
    simpa using hauth
  refine ⟨hconnNone, hfire, rfl, ?_, ?_, ?_⟩
  · rw [handleConnectionUpdate_close_eq (qrTimeoutFire s id).1 id
      { st with status := .error, error := some "timeout" } _ o hfire rfl rfl]
    unfold handleClose
    rw [if_pos (Or.inl rfl)]
  · unfold createConnectionDispatch
    rw [hpromN]
    dsimp only
    rw [hlockN, hfire]
    simp
  · unfold internalDispatch
    rw [if_neg (by simp [hconnNone])]
    rw [if_neg (by simp [hconnNone])]
    simp [hauthT]

/-- C3 witness: instantiating the statement at a key mid-provisioning
(connecting status, locks held, credential folder on disk). -/
theorem c3_witness :
    (qrTimeoutFire c3State "k").1.connections "k" = none
    ∧ (qrTimeoutFire c3State "k").1.connectionStatus "k"
        = some { id := "k", status := .error, error := some "timeout" }
    ∧ (qrTimeoutFire c3State "k").2 = none
    ∧ (handleConnectionUpdate (qrTimeoutFire c3State "k").1 "k"
        { connection := some .closed, errorCode := some 408 } {}).scheduled
        = none
    ∧ createConnectionDispatch (qrTimeoutFire c3State "k").1 "k" false
        = .runInternal
    ∧ internalDispatch (qrTimeoutFire c3State "k").1 "k" false
        = .proceed true := by
  exact c3_qr_timeout_is_terminal_until_fresh_create c3State "k"
    { id := "k", status := .connecting } {} (by decide) (by decide) (by decide)

/-- C6 counterexample: key "k" is connected with its counter at 3; a
retryable 515 close arrives.  The counter is removed (reset) by this
transition even though the key never transitions to Connected here — the
status entry is dropped entirely — refuting "no other transition resets it
to zero". -/
theorem c6_counterexample :
    c6State.reconnectAttempts "k" = some 3
    ∧ (handleConnectionUpdate c6State "k"
        { connection := some .closed, errorCode := some 515 }
        {}).state.reconnectAttempts "k" = none
    ∧ ((handleConnectionUpdate c6State "k"
        { connection := some .closed, errorCode := some 515 }
        {}).state.connectionStatus "k").map ConnectionStatus.status
        ≠ some .connected := by
  decide

/-- C6 amended: every open event clears the per-key counter (and sets the
status to connected); a close event clears a present counter exactly when
it reaches the reconnectable branch with the counter at the bound (the
retries-exhausted Fatal-Error transition) — so the exhausted transition,
too, resets the counter, not only reaching Connected. -/
theorem c6_counter_cleared_on_connected_or_exhaustion :
    (∀ (s : SvcState) (id : String) (st : ConnectionStatus),
        s.connectionStatus id = some st →
        (handleConnectionUpdate s id { connection := some .opened }
            ({} : RemoveOracle)).state.reconnectAttempts id = none
        ∧ ((handleConnectionUpdate s id { connection := some .opened }
            ({} : RemoveOracle)).state.connectionStatus id).map
            ConnectionStatus.status = some .connected)
    ∧ (∀ (s : SvcState) (id : String) (st : ConnectionStatus)
        (u : UpdateInfo) (o : RemoveOracle) (n : Nat),
        s.connectionStatus id = some st →
        u.qr = none → u.connection = some .closed →
        s.reconnectAttempts id = some n →
        ((handleConnectionUpdate s id u o).state.reconnectAttempts id = none
          ↔ reachesRetryBranch st u ∧ MAX_RECONNECT_ATTEMPTS ≤ n)) := by
  constructor
  · intro s id st hst
    rw [handleConnectionUpdate_open_eq s id st _ {} hst rfl rfl]
    unfold handleOpen
    dsimp only
    refine ⟨by simp [tdel_same], ?_⟩
    rw [tset_same]
    repeat' split
    all_goals rfl
  · intro s id st u o n hst hqr hconn hcnt
    rw [handleConnectionUpdate_close_eq s id st u o hst hqr hconn]
    unfold handleClose
    by_cases h1 : u.errorCode = some 408 ∨ st.error = some "timeout"
    · rw [if_pos h1]
      simp [reachesRetryBranch, h1, removeConnection_reconnectAttempts, hcnt]
    · rw [if_neg h1]
      by_cases h2 : u.errorCode = some DisconnectReason.badSession ∨
          u.errorCode = some DisconnectReason.forbidden ∨ u.msgHas405 = true
      · rw [if_pos (by tauto)]
        simp only [reachesRetryBranch]
        simp [h2, removeConnection_reconnectAttempts, hcnt]
      · rw [if_neg (by tauto)]
        by_cases h3 : u.errorCode.any (fun c => reconectaveis.contains c)
            = true
        · rw [if_pos h3]
          dsimp only
          rw [hcnt]
          simp only [Option.getD_some]
          have h3x : Option.any (fun c => decide (c ∈ reconectaveis))
              u.errorCode = true := by simpa using h3
          by_cases h4 : MAX_RECONNECT_ATTEMPTS ≤ n
          · rw [if_pos h4]
            simp [reachesRetryBranch, h1, h2, h3x, h4,
              removeConnection_reconnectAttempts, tdel_same]
          · rw [if_neg h4]
            simp [reachesRetryBranch, h1, h2, h3x, tset_same]
            omega
        · rw [if_neg h3]
          have h3x : ¬Option.any (fun c => decide (c ∈ reconectaveis))
              u.errorCode = true := by simpa using h3
          simp [reachesRetryBranch, h3x, hcnt]

/-- C6 witness: instantiating both parts — an open event at counter 1
clears the counter; a 515 close at counter 1 does not (1 is below the
bound). -/
theorem c6_witness :
    ((handleConnectionUpdate c6WitState "k" { connection := some .opened }
        ({} : RemoveOracle)).state.reconnectAttempts "k" = none)
    ∧ ((handleConnectionUpdate c6WitState "k"
        { connection := some .closed, errorCode := some 515 }
        ({} : RemoveOracle)).state.reconnectAttempts "k" = none
        ↔ reachesRetryBranch { id := "k", status := .connected }
            { connection := some .closed, errorCode := some 515 }
          ∧ MAX_RECONNECT_ATTEMPTS ≤ 1) := by
  exact ⟨(c6_counter_cleared_on_connected_or_exhaustion.1 c6WitState "k"
      { id := "k", status := .connected } (by decide)).1,
    c6_counter_cleared_on_connected_or_exhaustion.2 c6WitState "k"
      { id := "k", status := .connected }
      { connection := some .closed, errorCode := some 515 } {} 1
      (by decide) rfl rfl (by decide)⟩

theorem connectionUpdatePrelude_surfaced (s : SvcState) (e : EpochState)
    (id : String) (u : UpdateInfo) :
    (connectionUpdatePrelude s e id u).2.2
      = (u.qr.isSome && !e.qrShown && !((s.qrLocks id).getD false)) := by
  rfl

theorem connectionUpdatePrelude_qrShown (s : SvcState) (e : EpochState)
    (id : String) (u : UpdateInfo) :
    ((connectionUpdatePrelude s e id u).2.1).qrShown
      = (e.qrShown ||
          (u.qr.isSome && !e.qrShown && !((s.qrLocks id).getD false))) := by
  unfold connectionUpdatePrelude
  dsimp only
  split_ifs <;> simp_all

/-- C5: within one epoch the provisioning payload is surfaced at most
once: over any sequence of transport events processed by the listener, at
most one event runs the guarded surfacing block — and none at all once the
epoch's `qrShown` flag is already set. -/
theorem c5_qr_surfaced_at_most_once :
    ∀ (s : SvcState) (e : EpochState) (id : String)
      (us : List UpdateInfo),
      surfaceCount s e id us ≤ (if e.qrShown then 0 else 1) := by
  intro s e id us
  induction us generalizing s e with
  | nil => simp [surfaceCount]
  | cons u us ih =>
    simp only [surfaceCount]
    have hsurf := connectionUpdatePrelude_surfaced s e id u
    have hshown := connectionUpdatePrelude_qrShown s e id u
    by_cases hf : (connectionUpdatePrelude s e id u).2.2 = true
    · have he : e.qrShown = false := by
        rcases hq : e.qrShown with _ | _
        · rfl
        · rw [hsurf, hq] at hf
          simp at hf
      have hafter : ((connectionUpdatePrelude s e id u).2.1).qrShown
          = true := by
        rw [hshown, ← hsurf, hf]
        simp
      have hrest := ih (connectionUpdatePrelude s e id u).1
        (connectionUpdatePrelude s e id u).2.1
      rw [hafter] at hrest
      simp only [if_true] at hrest
      rw [hf, he]
      simp
      omega
    · have hf0 : (connectionUpdatePrelude s e id u).2.2 = false := by
        simpa using hf
      have hafter : ((connectionUpdatePrelude s e id u).2.1).qrShown
          = e.qrShown := by
        rw [hshown, ← hsurf, hf0]
        simp
      have hrest := ih (connectionUpdatePrelude s e id u).1
        (connectionUpdatePrelude s e id u).2.1
      rw [hafter] at hrest
      rw [hf0]
      simpa using hrest

theorem jid_at_mem_iff (n : List Char)
    (h55 : (['5', '5'].isPrefixOf n) = true)
    (hlen : (n.drop 4).length = 9)
    (h9 : (['9'].isPrefixOf (n.drop 4)) = true) :
    ('@' ∈ (['5', '5'] ++ (n.drop 2).take 2 ++ (n.drop 4).drop 1))
      ↔ '@' ∈ n := by
  obtain ⟨t, ht⟩ := List.isPrefixOf_iff_prefix.mp h55
  subst ht
  simp only [List.cons_append, List.nil_append, List.drop_succ_cons,
    List.drop_zero] at h9 hlen ⊢
  obtain ⟨r, hr⟩ := List.isPrefixOf_iff_prefix.mp h9
  have hteq : t = t.take 2 ++ '9' :: r := by
    conv_lhs => rw [← List.take_append_drop 2 t]
    rw [← hr]
    rfl
  rw [← hr]
  conv_rhs => rw [hteq]
  simp [List.mem_append]

/-- C10: the three send operations derive the destination JID from the
input number by one and the same pure transformation, and that
transformation is exactly the claimed one: the ninth digit of a Brazilian
mobile number written with "55" + 2 extra chars + 9-digit local part
starting in "9" is dropped, every other number is unchanged, and
"@s.whatsapp.net" is appended exactly when the input contains no "@". -/
theorem c10_send_jid_uniform :
    (∀ n : List Char, sendTextMessageJid n = sendMediaMessageJid n)
    ∧ (∀ n : List Char, sendTextMessageJid n = sendMediaMessageBase64Jid n)
    ∧ (∀ n : List Char, sendTextMessageJid n = claimTenJid n) := by
  refine ⟨fun n => rfl, fun n => rfl, fun n => ?_⟩
  unfold sendTextMessageJid claimTenJid
  dsimp only
  by_cases h55 : (['5', '5'].isPrefixOf n) = true
  · rw [if_pos h55]
    by_cases hloc : ((n.drop 4).length = 9
        ∧ (['9'].isPrefixOf (n.drop 4)) = true)
    · have hcond : ((['5', '5'].isPrefixOf n) = true
          ∧ (n.drop 4).length = 9 ∧ (['9'].isPrefixOf (n.drop 4)) = true) :=
        ⟨h55, hloc.1, hloc.2⟩
      rw [if_pos hloc, if_pos hcond]
      have hmem := jid_at_mem_iff n h55 hloc.1 hloc.2
      by_cases hat : '@' ∈ n
      · rw [if_pos (hmem.mpr hat), if_pos hat]
      · rw [if_neg (fun hx => hat (hmem.mp hx)), if_neg hat]
    · have hcond : ¬((['5', '5'].isPrefixOf n) = true
          ∧ (n.drop 4).length = 9 ∧ (['9'].isPrefixOf (n.drop 4)) = true) :=
        fun hx => hloc ⟨hx.2.1, hx.2.2⟩
      rw [if_neg hloc, if_neg hcond]
  · have hcond : ¬((['5', '5'].isPrefixOf n) = true
        ∧ (n.drop 4).length = 9 ∧ (['9'].isPrefixOf (n.drop 4)) = true) :=
      fun hx => h55 hx.1
    rw [if_neg h55, if_neg hcond]

end ApiBaileys
